import Mathlib

/-!
Verification of the DocuFlow embedding/answer wrapper (src/vectorizer.py)
and the upload tester (src/test_api.py), as a shallow embedding in Lean.

Python values that flow through the response-unwrapping code are modelled
by the inductive type `Py`; Python attribute lookup, truthiness and string
conversion are modelled explicitly so the defensive shape-sniffing code of
`vectorize_metadata`, `vectorize_query` and `generate_answer` can be
transcribed branch for branch.
-/

namespace DocuFlow

/-- A Python value as seen by the embedding-extraction code.  Numbers are
modelled by `Int`.  `list` is a Python list of numbers, `dict` a dictionary,
`str` a string, `obj` an arbitrary object with named attributes, an
optional iteration protocol yielding numbers (`Option.none` means the object
is not iterable) and a flag saying whether its type supports `len()`, and
`method` a bound method object such as the `values` method every Python
dict exposes. `num` is a bare non-iterable scalar. -/
inductive Py where
  | list (xs : List Int)
  | dict (entries : List (String × Py))
  | str (s : String)
  | obj (attrs : List (String × Py)) (iter : Option (List Int)) (sized : Bool)
  | method
  | num (n : Int)

/-- Python `isinstance(v, list)`. -/
def Py.isList : Py → Bool
  | .list _ => true
  | _ => false

/-- Python `isinstance(v, dict)`. -/
def Py.isDict : Py → Bool
  | .dict _ => true
  | _ => false

/-- Python `isinstance(v, str)`. -/
def Py.isStr : Py → Bool
  | .str _ => true
  | _ => false

/-- Python `hasattr(v, a)` for the three attribute names the source ever
queries (`embedding`, `values`, `__iter__`).  A dict always has the
`values` method and is iterable; lists and strings are iterable; an `obj`
has its named attributes and is iterable iff its iteration field is set. -/
def hasattr : Py → String → Bool
  | .list _, a => a == "__iter__"
  | .dict _, a => a == "values" || a == "__iter__"
  | .str _, a => a == "__iter__"
  | .method, _ => false
  | .num _, _ => false
  | .obj attrs it _, a => if a == "__iter__" then it.isSome else (attrs.lookup a).isSome

/-- Python `getattr(v, a)`: on a dict, `values` resolves to the bound
method object; on an `obj`, to the named attribute. -/
def getattr : Py → String → Option Py
  | .dict _, a => if a == "values" then some .method else Option.none
  | .obj attrs _ _, a => attrs.lookup a
  | _, _ => Option.none

/-- `getattr` under a `hasattr` guard (the fallback value is never used by
the transcribed code paths). -/
def getattrD (v : Py) (a : String) : Py :=
  (getattr v a).getD v

/-- Python `d.get(k, dflt)` on a dict. -/
def dictGet : Py → String → Py → Py
  | .dict entries, k, dflt => (entries.lookup k).getD dflt
  | v, _, _ => v

/-- Python `list(v)` for the iterable objects that can reach the
`__iter__` fallback branch. -/
def iterList : Py → List Int
  | .list xs => xs
  | .obj _ it _ => it.getD []
  | _ => []

/-- Python `f"Unexpected embedding format: \x7btype(embedding)\x7d"` tail. -/
def typeName : Py → String
  | .list _ => "<class \u0027list\u0027>"
  | .dict _ => "<class \u0027dict\u0027>"
  | .str _ => "<class \u0027str\u0027>"
  | .method => "<class \u0027builtin_function_or_method\u0027>"
  | .num _ => "<class \u0027int\u0027>"
  | .obj _ _ _ => "<class \u0027object\u0027>"

/-- First block of `vectorize_metadata` (vectorizer.py lines 63-71),
comment `Extract the embedding vector`: pick `result.embedding`
(unwrapping a nested `values` key when it is a dict), else the
`embedding` key of a dict result, else the result itself. -/
def unwrapResponse (result : Py) : Py :=
  if hasattr result "embedding" then
    let e := getattrD result "embedding"
    if e.isDict then dictGet e "values" e else e
  else if result.isDict then dictGet result "embedding" result
  else result

/-- Second block of `vectorize_metadata` (vectorizer.py lines 74-81),
comment `Ensure we have a list`: accept a list as is, otherwise take a
`values` attribute, otherwise materialise a non-string iterable, otherwise
raise `Unexpected embedding format`. -/
def ensureList (embedding : Py) : Except String Py :=
  if embedding.isList then .ok embedding
  else if hasattr embedding "values" then .ok (getattrD embedding "values")
  else if hasattr embedding "__iter__" && !embedding.isStr then .ok (.list (iterList embedding))
  else .error ("Unexpected embedding format: " ++ typeName embedding)

/-- Python `len(v)` support: lists, dicts and strings are sized; a bound
method and a bare number are not; an arbitrary object is sized iff its
type implements the length protocol (its `sized` flag). -/
def hasLen : Py → Bool
  | .list _ => true
  | .dict _ => true
  | .str _ => true
  | .obj _ _ sz => sz
  | .method => false
  | .num _ => false

/-- The Python type name as it appears in the `len()` TypeError message. -/
def shortTypeName : Py → String
  | .list _ => "list"
  | .dict _ => "dict"
  | .str _ => "str"
  | .obj _ _ _ => "object"
  | .method => "builtin_function_or_method"
  | .num _ => "int"

/-- The logging call at vectorizer.py line 84 (line 130 in
`vectorize_query`) interpolates `len(embedding)` into its f-string inside
the same try block, so it eagerly evaluates `len(embedding)` before the
return: on a value whose type does not support `len()` this raises a
TypeError instead of returning the value. -/
def lenCheck (embedding : Py) : Except String Py :=
  if hasLen embedding then .ok embedding
  else .error ("TypeError: object of type \u0027" ++ shortTypeName embedding
    ++ "\u0027 has no len()")

/-- The embedding extraction of `vectorize_metadata`
(vectorizer.py lines 60-86): the two commented blocks in sequence,
followed by the eager `len(embedding)` evaluation of the logging line
before the extracted value is returned. -/
def extractEmbeddingMeta (result : Py) : Except String Py :=
  match ensureList (unwrapResponse result) with
  | .ok embedding => lenCheck embedding
  | .error e => .error e

/-- The embedding extraction of `vectorize_query`
(vectorizer.py lines 110-132), transcribed independently from its own
code site: the same two blocks and the same eager `len(embedding)`
evaluation at line 130. -/
def extractEmbeddingQuery (result : Py) : Except String Py :=
  let embedding :=
    if hasattr result "embedding" then
      let e := getattrD result "embedding"
      if e.isDict then dictGet e "values" e else e
    else if result.isDict then dictGet result "embedding" result
    else result
  let checked : Except String Py :=
    if embedding.isList then .ok embedding
    else if hasattr embedding "values" then .ok (getattrD embedding "values")
    else if hasattr embedding "__iter__" && !embedding.isStr then .ok (.list (iterList embedding))
    else .error ("Unexpected embedding format: " ++ typeName embedding)
  match checked with
  | .ok embedding2 => lenCheck embedding2
  | .error e => .error e

/-- Spec-side shape grammar for a single unwrapped value: a direct list,
a container object bearing a numeric `values` attribute, or a non-string
iterable of numbers, together with the flat numeric list it denotes. -/
def flatValue : Py → Option (List Int)
  | .list xs => some xs
  | .obj attrs it _ =>
    match attrs.lookup "values" with
    | some (.list xs) => some xs
    | some _ => Option.none
    | Option.none => it
  | _ => Option.none

/-- Spec-side classification of a full embedding-service response: the
recognised shapes (plain list; container with an `embedding` key or
attribute, possibly nesting a `values` entry; bare iterable) and the flat
numeric list each denotes. -/
def goodShape : Py → Option (List Int)
  | .dict entries =>
    match entries.lookup "embedding" with
    | some e => flatValue e
    | Option.none => Option.none
  | .obj attrs it sz =>
    match attrs.lookup "embedding" with
    | some (.dict inner) =>
      match inner.lookup "values" with
      | some v => flatValue v
      | Option.none => Option.none
    | some e => flatValue e
    | Option.none => flatValue (.obj attrs it sz)
  | r => flatValue r

/-- A Python scalar metadata value, with the constructors the metadata
dictionaries of the repository carry: a string, an integer, `None`, or a
boolean. -/
inductive MVal where
  | str (s : String)
  | int (n : Int)
  | none
  | bool (b : Bool)

/-- Python truthiness of a metadata value: empty string, zero, `None` and
`False` are falsy. -/
def truthy : MVal → Bool
  | .str s => s != ""
  | .int n => n != 0
  | .none => false
  | .bool b => b

/-- Python `str(v)` as interpolated by an f-string. -/
def mvalStr : MVal → String
  | .str s => s
  | .int n => toString n
  | .none => "None"
  | .bool true => "True"
  | .bool false => "False"

/-- Python `s.strip()`: remove leading and trailing whitespace, modelled
structurally on the character list. -/
def pyStrip (s : String) : String :=
  String.mk (((s.data.dropWhile Char.isWhitespace).reverse.dropWhile
    Char.isWhitespace).reverse)

/-- Python `s[:n]`: the first `n` characters, modelled structurally on the
character list. -/
def pyTake (s : String) (n : Nat) : String :=
  String.mk (s.data.take n)

/-- One `if metadata.get(key): text_parts.append(f"Label: ...")` step of
`vectorize_metadata` (vectorizer.py lines 27-49): the contribution of a
single field to `text_parts`. -/
def segment (m : List (String × MVal)) (k label : String) : List String :=
  match m.lookup k with
  | some v => if truthy v then [label ++ mvalStr v] else []
  | Option.none => []

/-- The `text_parts` list built by `vectorize_metadata`
(vectorizer.py lines 24-49), in source order: six invoice fields, two
contract fields, then the shared summary field. -/
def metadataParts (m : List (String × MVal)) : List String :=
  segment m "invoice_id" "Invoice ID: " ++
  segment m "seller_name" "Seller: " ++
  segment m "seller_address" "Address: " ++
  segment m "tax_id" "Tax ID: " ++
  segment m "subtotal_amount" "Subtotal: " ++
  segment m "tax_amount" "Tax: " ++
  segment m "contract_id" "Contract ID: " ++
  segment m "text" "Text: " ++
  segment m "summary" "Summary: "

/-- The text representation `" | ".join(text_parts)` of
vectorizer.py line 51. -/
def metadataText (m : List (String × MVal)) : String :=
  String.intercalate " | " (metadataParts m)

/-- The six invoice fields, with their labels, in the fixed order the spec
names: invoice id, seller, address, tax id, subtotal, tax. -/
def invoiceFieldLabels : List (String × String) :=
  [("invoice_id", "Invoice ID: "), ("seller_name", "Seller: "),
   ("seller_address", "Address: "), ("tax_id", "Tax ID: "),
   ("subtotal_amount", "Subtotal: "), ("tax_amount", "Tax: ")]

/-- The invoice field names. -/
def invoiceFieldNames : List String :=
  ["invoice_id", "seller_name", "seller_address", "tax_id",
   "subtotal_amount", "tax_amount"]

/-- All field names `vectorize_metadata` recognises. -/
def recognizedFields : List String :=
  ["invoice_id", "seller_name", "seller_address", "tax_id",
   "subtotal_amount", "tax_amount", "contract_id", "text", "summary"]

/-- Spec-side contribution of one labelled field: the labelled segment when
the field is present with a truthy value, nothing otherwise. -/
def specFieldPart (m : List (String × MVal)) (kl : String × String) : Option String :=
  match m.lookup kl.1 with
  | some v => if truthy v then some (kl.2 ++ mvalStr v) else Option.none
  | Option.none => Option.none

/-- Spec-side derived segments for an invoice-only mapping: the labelled
invoice fields that are present with truthy values, in the fixed order. -/
def specInvoiceParts (m : List (String × MVal)) : List String :=
  invoiceFieldLabels.filterMap (specFieldPart m)

/-- Spec-side derived text for an invoice-only mapping. -/
def specInvoiceText (m : List (String × MVal)) : String :=
  String.intercalate " | " (specInvoiceParts m)

/-- Python truthiness of the optional `contract_ids` argument of
`generate_answer`: `None` and the empty list are falsy. -/
def idsTruthy : Option (List String) → Bool
  | Option.none => false
  | some l => !l.isEmpty

/-- `len(contract_ids)` (only consulted when the argument is truthy). -/
def idsLen : Option (List String) → Nat
  | Option.none => 0
  | some l => l.length

/-- `contract_ids[i]` (only consulted under the bound check). -/
def idAt : Option (List String) → Nat → String
  | Option.none, _ => ""
  | some l, i => l.getD i ""

/-- One iteration of the context-assembly loop of `generate_answer`
(vectorizer.py lines 157-161): an excerpt is labelled with its contract id
when `contract_ids` is truthy and covers position `i`, otherwise with the
generic sequential excerpt label. -/
def contextPart (contract_ids : Option (List String)) (i : Nat) (text : String) : String :=
  if idsTruthy contract_ids ∧ i < idsLen contract_ids then
    "Contract ID: " ++ idAt contract_ids i ++ "\n" ++ text
  else
    "Contract Excerpt " ++ toString (i + 1) ++ ":\n" ++ text

/-- The `context_parts` list of `generate_answer`
(vectorizer.py lines 156-161), built by enumerating the context texts. -/
def contextParts (context_texts : List String) (contract_ids : Option (List String)) : List String :=
  context_texts.enum.map (fun p => contextPart contract_ids p.1 p.2)

/-- The joined context block of vectorizer.py line 163. -/
def contextJoined (context_texts : List String) (contract_ids : Option (List String)) : String :=
  String.intercalate "\n\n---\n\n" (contextParts context_texts contract_ids)

/-- The full prompt assembled by `generate_answer`
(vectorizer.py lines 166-175). -/
def buildPrompt (query : String) (context_texts : List String)
    (contract_ids : Option (List String)) : String :=
  "You are a helpful assistant that answers questions about contracts based on the provided contract excerpts.\n\nUse the following contract excerpts to answer the user\u0027s question. If the information is not available in the provided excerpts, say so clearly.\n\nContract Excerpts:\n"
    ++ contextJoined context_texts contract_ids
    ++ "\n\nUser Question: " ++ query
    ++ "\n\nPlease provide a clear, accurate answer based on the contract excerpts above. If you reference specific information, mention which contract it comes from if available."

/-- One `parts` element of a candidate content; `text` is `Option.none`
when the part has no `text` attribute. -/
structure ContentPart where
  text : Option String

/-- A candidate content object: an optional `parts` list, an optional flat
`text` attribute, and its `str(...)` rendering. -/
structure CandContent where
  parts : Option (List ContentPart)
  text : Option String
  strRepr : String

/-- A response candidate: optional `content` and `text` attributes and its
`str(...)` rendering.  The `finish_reason` attribute is only logged by the
source and does not influence the result, so it is not modelled. -/
structure Candidate where
  content : Option CandContent
  text : Option String
  strRepr : String

/-- The `prompt_feedback` object with its optional `block_reason`. -/
structure PromptFeedback where
  block_reason : Option String

/-- A generation-service response as probed by `generate_answer`
(vectorizer.py lines 210-265). -/
structure GenResponse where
  text : Option String
  candidates : Option (List Candidate)
  prompt_feedback : Option PromptFeedback

/-- Answer located from the first candidate (vectorizer.py lines 219-249):
join the truthy `text` parts of the content, else the flat content text,
else the stringified content; without content, the candidate text, else the
stringified candidate. -/
def locateFromCandidates (response : GenResponse) : Option String :=
  match response.candidates with
  | some (candidate :: _) =>
    match candidate.content with
    | some content =>
      match content.parts with
      | some parts =>
        let text_parts := parts.filterMap (fun part =>
          match part.text with
          | some t => if t != "" then some t else Option.none
          | Option.none => Option.none)
        if text_parts.isEmpty then Option.none else some (String.join text_parts)
      | Option.none =>
        match content.text with
        | some t => some t
        | Option.none => some content.strRepr
    | Option.none =>
      match candidate.text with
      | some t => some t
      | Option.none => some candidate.strRepr
  | _ => Option.none

/-- The answer-locating logic of `generate_answer`
(vectorizer.py lines 211-249): a truthy direct `text` attribute wins,
otherwise the first candidate is probed. -/
def locateAnswer (response : GenResponse) : Option String :=
  match response.text with
  | some t => if t != "" then some t else locateFromCandidates response
  | Option.none => locateFromCandidates response

/-- The failure raised when no truthy answer was located
(vectorizer.py lines 252-265): a `Content was blocked` error when the
prompt feedback carries a truthy block reason, else the generic
extraction error. -/
def blockedOrExtractError (response : GenResponse) : Except String String :=
  match response.prompt_feedback with
  | some feedback =>
    match feedback.block_reason with
    | some reason =>
      if reason != "" then .error ("Content was blocked: " ++ reason)
      else .error "Could not extract answer from Gemini response"
    | Option.none => .error "Could not extract answer from Gemini response"
  | Option.none => .error "Could not extract answer from Gemini response"

/-- The tail of `generate_answer` (vectorizer.py lines 211-272): locate the
answer, fail when none was located or the located text is falsy, fail when
the stripped text is empty, and otherwise return the stripped text. -/
def finishAnswer (response : GenResponse) : Except String String :=
  match locateAnswer response with
  | some a =>
    if a = "" then blockedOrExtractError response
    else if pyStrip a = "" then .error "Generated answer is empty"
    else .ok (pyStrip a)
  | Option.none => blockedOrExtractError response

/-- The external generation service: model initialisation
(`genai.GenerativeModel`) and content generation
(`model.generate_content`), each allowed to fail with an exception
message. -/
structure GenEnv where
  initModel : String → Except String String
  generateContent : String → String → Except String GenResponse

/-- The static fallback list of vectorizer.py line 187. -/
def alternative_models : List String :=
  ["gemini-1.5-pro", "gemini-1.5-flash", "gemini-pro"]

/-- The fallback loop of vectorizer.py lines 189-197: try each alternative
name differing from the configured one until one initialises. -/
def tryAlternatives (env : GenEnv) (model_name : String) : List String → Option String
  | [] => Option.none
  | alt :: rest =>
    if alt != model_name then
      match env.initModel alt with
      | .ok m => some m
      | .error _ => tryAlternatives env model_name rest
    else tryAlternatives env model_name rest

/-- Model initialisation with fallback (vectorizer.py lines 182-200): on a
primary failure try the alternatives; when none succeeds raise a new
error embedding the original failure message. -/
def initGenerativeModel (env : GenEnv) (model_name : String) : Except String String :=
  match env.initModel model_name with
  | .ok model => .ok model
  | .error model_error =>
    match tryAlternatives env model_name alternative_models with
    | some model => .ok model
    | Option.none =>
      .error ("Could not initialize any Gemini model. Original error: " ++ model_error)

/-- `generate_answer` (vectorizer.py lines 137-275): the fixed message on
an empty context list, otherwise prompt assembly, model initialisation
with fallback, content generation, and answer extraction.  Exceptions
propagate (the enclosing `except` block only logs and re-raises). -/
def generate_answer (env : GenEnv) (model_name query : String)
    (context_texts : List String) (contract_ids : Option (List String)) : Except String String :=
  if context_texts.isEmpty then
    .ok "No contract context available to generate an answer."
  else
    let prompt := buildPrompt query context_texts contract_ids
    match initGenerativeModel env model_name with
    | .error e => .error e
    | .ok model =>
      match env.generateContent model prompt with
      | .error e => .error e
      | .ok response => finishAnswer response

/-- `vectorize_metadata` (vectorizer.py lines 16-89) with the embedding
service abstracted as a function of the content text and the task type. -/
def vectorize_metadata (embed : String → String → Py) (metadata : List (String × MVal)) : Except String Py :=
  extractEmbeddingMeta (embed (metadataText metadata) "RETRIEVAL_DOCUMENT")

/-- `vectorize_query` (vectorizer.py lines 91-135) with the embedding
service abstracted the same way. -/
def vectorize_query (embed : String → String → Py) (query_text : String) : Except String Py :=
  extractEmbeddingQuery (embed query_text "RETRIEVAL_QUERY")

/-- One metadata line printed by `test_upload_invoice`
(test_api.py lines 34-35): every value is printed in full. -/
def invoiceMetadataLine (k : String) (v : MVal) : String :=
  "  " ++ k ++ ": " ++ mvalStr v

/-- The metadata lines printed by `test_upload_invoice` on HTTP 200. -/
def invoiceMetadataLines (metadata : List (String × MVal)) : List String :=
  metadata.map (fun kv => invoiceMetadataLine kv.1 kv.2)

/-- One metadata line printed by `test_upload_contract`
(test_api.py lines 73-78): the `text` field is truncated to a 200
character preview with the true length when its stringified value is
truthy and longer than 200 characters; every other field prints in full. -/
def contractMetadataLine (k : String) (v : MVal) : String :=
  if k = "text" ∧ truthy v ∧ 200 < (mvalStr v).length then
    "  " ++ k ++ ": " ++ pyTake (mvalStr v) 200
      ++ "... (truncated, full length: " ++ toString (mvalStr v).length ++ " chars)"
  else
    "  " ++ k ++ ": " ++ mvalStr v

/-- The metadata lines printed by `test_upload_contract` on HTTP 200. -/
def contractMetadataLines (metadata : List (String × MVal)) : List String :=
  metadata.map (fun kv => contractMetadataLine kv.1 kv.2)

/-! Helper lemmas. -/

lemma hasattr_obj_values (attrs : List (String × Py)) (it : Option (List Int)) (sz : Bool) :
    hasattr (Py.obj attrs it sz) "values" = (attrs.lookup "values").isSome := rfl

lemma hasattr_obj_embedding (attrs : List (String × Py)) (it : Option (List Int)) (sz : Bool) :
    hasattr (Py.obj attrs it sz) "embedding" = (attrs.lookup "embedding").isSome := rfl

lemma hasattr_obj_iter (attrs : List (String × Py)) (it : Option (List Int)) (sz : Bool) :
    hasattr (Py.obj attrs it sz) "__iter__" = it.isSome := rfl

lemma getattrD_obj (attrs : List (String × Py)) (it : Option (List Int)) (sz : Bool) (a : String) :
    getattrD (Py.obj attrs it sz) a = (attrs.lookup a).getD (Py.obj attrs it sz) := rfl

lemma ensureList_list (xs : List Int) : ensureList (Py.list xs) = .ok (.list xs) := rfl

lemma ensureList_dict (entries : List (String × Py)) :
    ensureList (Py.dict entries) = .ok Py.method := rfl

lemma ensureList_obj_values (attrs : List (String × Py)) (it : Option (List Int)) (sz : Bool)
    (v : Py) (hv : attrs.lookup "values" = some v) :
    ensureList (Py.obj attrs it sz) = .ok v := by
  simp [ensureList, Py.isList, hasattr_obj_values, getattrD_obj, hv]

lemma ensureList_obj_iter (attrs : List (String × Py)) (xs : List Int) (sz : Bool)
    (hv : attrs.lookup "values" = Option.none) :
    ensureList (Py.obj attrs (some xs) sz) = .ok (.list xs) := by
  simp [ensureList, Py.isList, Py.isStr, hasattr_obj_values, hasattr_obj_iter, hv, iterList]

lemma ensureList_obj_err (attrs : List (String × Py)) (sz : Bool)
    (hv : attrs.lookup "values" = Option.none) :
    ensureList (Py.obj attrs Option.none sz) =
      .error ("Unexpected embedding format: " ++ typeName (Py.obj attrs Option.none sz)) := by
  simp [ensureList, Py.isList, Py.isStr, hasattr_obj_values, hasattr_obj_iter, hv]

lemma ensureList_ok (u : Py) (xs : List Int) (h : flatValue u = some xs) :
    ensureList u = .ok (.list xs) := by
  cases u with
  | list ys => simp only [flatValue, Option.some.injEq] at h; subst h; rfl
  | dict entries => simp [flatValue] at h
  | str s => simp [flatValue] at h
  | method => simp [flatValue] at h
  | num n => simp [flatValue] at h
  | obj attrs it sz =>
    cases hv : attrs.lookup "values" with
    | some v =>
      cases v with
      | list ys =>
        simp only [flatValue, hv, Option.some.injEq] at h
        subst h
        exact ensureList_obj_values attrs it sz _ hv
      | dict e => simp [flatValue, hv] at h
      | str s => simp [flatValue, hv] at h
      | obj a i s2 => simp [flatValue, hv] at h
      | method => simp [flatValue, hv] at h
      | num n => simp [flatValue, hv] at h
    | none =>
      simp only [flatValue, hv] at h
      subst h
      exact ensureList_obj_iter attrs xs sz hv

lemma ensureList_none (u : Py) (h : flatValue u = Option.none) :
    ensureList u = .error ("Unexpected embedding format: " ++ typeName u) ∨
    ∃ v, getattr u "values" = some v ∧ ensureList u = .ok v := by
  cases u with
  | list ys => simp [flatValue] at h
  | dict entries => exact Or.inr ⟨Py.method, rfl, ensureList_dict entries⟩
  | str s => exact Or.inl rfl
  | method => exact Or.inl rfl
  | num n => exact Or.inl rfl
  | obj attrs it sz =>
    cases hv : attrs.lookup "values" with
    | some v =>
      refine Or.inr ⟨v, ?_, ensureList_obj_values attrs it sz v hv⟩
      simpa [getattr] using hv
    | none =>
      have hit : it = Option.none := by simpa [flatValue, hv] using h
      subst hit
      exact Or.inl (ensureList_obj_err attrs sz hv)

lemma unwrap_dict (entries : List (String × Py)) :
    unwrapResponse (Py.dict entries) = (entries.lookup "embedding").getD (Py.dict entries) := rfl

lemma unwrap_obj (attrs : List (String × Py)) (it : Option (List Int)) (sz : Bool) :
    unwrapResponse (Py.obj attrs it sz) =
      match attrs.lookup "embedding" with
      | some (Py.dict inner) => (inner.lookup "values").getD (Py.dict inner)
      | some e => e
      | Option.none => Py.obj attrs it sz := by
  cases he : attrs.lookup "embedding" with
  | none => simp [unwrapResponse, hasattr_obj_embedding, Py.isDict, he]
  | some e =>
    cases e <;>
      simp [unwrapResponse, hasattr_obj_embedding, getattrD_obj, Py.isDict, dictGet, he]

lemma goodShape_eq (r : Py) : goodShape r = flatValue (unwrapResponse r) := by
  cases r with
  | list xs => rfl
  | str s => rfl
  | method => rfl
  | num n => rfl
  | dict entries =>
    rw [unwrap_dict]
    cases he : entries.lookup "embedding" with
    | none => simp [goodShape, he, flatValue]
    | some e => simp [goodShape, he]
  | obj attrs it sz =>
    rw [unwrap_obj]
    cases he : attrs.lookup "embedding" with
    | none => simp [goodShape, he]
    | some e =>
      cases e with
      | dict inner =>
        cases hv : inner.lookup "values" with
        | none => simp [goodShape, he, hv, flatValue]
        | some v => simp [goodShape, he, hv]
      | list xs => simp [goodShape, he]
      | str s => simp [goodShape, he]
      | obj a i s2 => simp [goodShape, he]
      | method => simp [goodShape, he]
      | num n => simp [goodShape, he]

/-! Claim theorems. -/

/-- C10 (corrected): the embedding-extraction logic transcribed from
`vectorize_metadata` and the one transcribed from `vectorize_query`
produce identical results on every service response, and the two methods
differ only in the input text and the document-versus-query task tag
handed to the service; the shared outcome, however, is not always a flat
numeric list or the unexpected-format error (see the counterexample). -/
theorem claim_C10 :
    (∀ r : Py, extractEmbeddingMeta r = extractEmbeddingQuery r) ∧
    (∀ (embed : String → String → Py) (metadata : List (String × MVal)),
      vectorize_metadata embed metadata
        = extractEmbeddingQuery (embed (metadataText metadata) "RETRIEVAL_DOCUMENT")) ∧
    (∀ (embed : String → String → Py) (query_text : String),
      vectorize_query embed query_text
        = extractEmbeddingMeta (embed query_text "RETRIEVAL_QUERY")) :=
  ⟨fun _ => rfl, fun _ _ => rfl, fun _ _ => rfl⟩

/-- Counterexample to C10 as stated: on the plain dict response `\x7b\x7d`
both extraction logics raise the same error, but it is the `len()`
TypeError on the bound `values` method of the dict - neither a flat
numeric list nor the unexpected-format error, so the claimed dichotomy
of outcomes fails even though the two logics agree. -/
theorem claim_C10_counterexample :
    extractEmbeddingMeta (Py.dict [])
        = .error "TypeError: object of type \u0027builtin_function_or_method\u0027 has no len()" ∧
    extractEmbeddingQuery (Py.dict [])
        = .error "TypeError: object of type \u0027builtin_function_or_method\u0027 has no len()" ∧
    (∀ xs : List Int,
      (Except.error "TypeError: object of type \u0027builtin_function_or_method\u0027 has no len()"
          : Except String Py) ≠ .ok (.list xs)) ∧
    "TypeError: object of type \u0027builtin_function_or_method\u0027 has no len()"
        ≠ "Unexpected embedding format: " ++ typeName (unwrapResponse (Py.dict [])) := by
  refine ⟨rfl, rfl, ?_, ?_⟩
  · intro xs h
    cases h
  · decide

/-- C5 (confirmed): on an empty context-text list `generate_answer`
returns the fixed no-context message, and the result does not depend on
the generation environment at all (no initialisation or generation call
can influence it). -/
theorem claim_C5 :
    ∀ (env env2 : GenEnv) (model_name query : String) (ids : Option (List String)),
      generate_answer env model_name query [] ids
          = .ok "No contract context available to generate an answer." ∧
      generate_answer env model_name query [] ids
          = generate_answer env2 model_name query [] ids :=
  fun _ _ _ _ _ => ⟨rfl, rfl⟩

lemma contextParts_getElem (ctx : List String) (ids : Option (List String)) (i : Nat)
    (hi : i < ctx.length) :
    (contextParts ctx ids)[i]? = some (contextPart ids i (ctx.getD i "")) := by
  simp [contextParts, List.enum, List.getElem?_map, List.getElem?_enumFrom,
    List.getElem?_eq_getElem hi, List.getD]

/-- C3 (confirmed): in the context block of the prompt built by
`generate_answer`, a position not covered by `contract_ids` (argument
absent, or list shorter than the position needs) gets the generic
sequential label `Contract Excerpt N:` with `N = i + 1`, and a covered
position gets the `Contract ID: <id>` label instead. -/
theorem claim_C3 (ctx : List String) (ids : Option (List String)) (i : Nat)
    (hi : i < ctx.length) :
    ((ids = Option.none ∨ ∃ l, ids = some l ∧ l.length ≤ i) →
      (contextParts ctx ids)[i]? =
        some ("Contract Excerpt " ++ toString (i + 1) ++ ":\n" ++ ctx.getD i "")) ∧
    (∀ l, ids = some l → i < l.length →
      (contextParts ctx ids)[i]? =
        some ("Contract ID: " ++ l.getD i "" ++ "\n" ++ ctx.getD i "")) := by
  have hbase := contextParts_getElem ctx ids i hi
  constructor
  · rintro (rfl | ⟨l, rfl, hl⟩)
    · rw [hbase]
      simp [contextPart, idsTruthy]
    · rw [hbase]
      simp [contextPart, idsLen, Nat.not_lt.mpr hl]
  · intro l hl hil
    subst hl
    rw [hbase]
    have hne : l.isEmpty = false := by
      cases l with
      | nil => simp at hil
      | cons a t => rfl
    simp [contextPart, idsTruthy, idsLen, idAt, hil, hne]

/-- Witness for C3 at a concrete uncovered position. -/
theorem claim_C3_witness :
    (contextParts ["alpha"] Option.none)[0]? =
      some ("Contract Excerpt " ++ toString (0 + 1) ++ ":\n" ++ (["alpha"].getD 0 "")) :=
  (claim_C3 ["alpha"] Option.none 0 (by decide)).1 (Or.inl rfl)

/-- C1 (corrected): responses whose recognised shape denotes a flat
numeric list are extracted to exactly that list; on every other response
the extraction raises the `Unexpected embedding format` error, unless
the unwrapped value still exposes a `values` attribute: then the
attribute is returned without error when it supports `len()` (a dict or
a string, say), and otherwise the eager `len(embedding)` evaluation in
the logging f-string raises a TypeError - in particular every dict
reaching the final normalisation yields its bound `values` method and
raises the TypeError. -/
theorem claim_C1 (r : Py) :
    (∀ xs, goodShape r = some xs → extractEmbeddingMeta r = .ok (.list xs)) ∧
    (goodShape r = Option.none →
      extractEmbeddingMeta r
          = .error ("Unexpected embedding format: " ++ typeName (unwrapResponse r)) ∨
      ∃ v, getattr (unwrapResponse r) "values" = some v ∧
        ((hasLen v = true ∧ extractEmbeddingMeta r = .ok v) ∨
         (hasLen v = false ∧ extractEmbeddingMeta r =
            .error ("TypeError: object of type \u0027" ++ shortTypeName v
              ++ "\u0027 has no len()")))) := by
  rw [goodShape_eq]
  constructor
  · intro xs h
    have he := ensureList_ok _ xs h
    simp [extractEmbeddingMeta, he, lenCheck, hasLen]
  · intro h
    rcases ensureList_none _ h with he | ⟨v, hv, he⟩
    · exact Or.inl (by simp [extractEmbeddingMeta, he])
    · refine Or.inr ⟨v, hv, ?_⟩
      cases hs : hasLen v with
      | true => exact Or.inl ⟨rfl, by simp [extractEmbeddingMeta, he, lenCheck, hs]⟩
      | false => exact Or.inr ⟨rfl, by simp [extractEmbeddingMeta, he, lenCheck, hs]⟩

/-- Witness for C1 at a plain numeric list response. -/
theorem claim_C1_witness :
    extractEmbeddingMeta (Py.list [1, 2]) = .ok (.list [1, 2]) :=
  (claim_C1 (Py.list [1, 2])).1 [1, 2] rfl

/-- Counterexample to C1 as stated: the response
`\x7b"embedding": \x7b"values": [1, 2]\x7d\x7d` is a container with an
`embedding` key nesting a `values` entry, yet the extraction neither
returns the flat numeric list nor raises the unexpected-format error:
the dict-key branch skips the `values` unwrapping, the inner dict
answers `hasattr(embedding, "values")` with its bound method, and the
eager `len(embedding)` evaluation in the logging line raises a
TypeError on that method object. -/
theorem claim_C1_counterexample :
    extractEmbeddingMeta (Py.dict [("embedding", Py.dict [("values", Py.list [1, 2])])])
        = .error "TypeError: object of type \u0027builtin_function_or_method\u0027 has no len()" ∧
    (∀ xs : List Int,
      (Except.error "TypeError: object of type \u0027builtin_function_or_method\u0027 has no len()"
          : Except String Py) ≠ .ok (.list xs)) ∧
    "TypeError: object of type \u0027builtin_function_or_method\u0027 has no len()"
        ≠ "Unexpected embedding format: " ++ typeName (unwrapResponse
            (Py.dict [("embedding", Py.dict [("values", Py.list [1, 2])])])) := by
  refine ⟨rfl, ?_, ?_⟩
  · intro xs h
    cases h
  · decide

lemma lookup_none_of_keys (m : List (String × MVal)) (L : List String)
    (h : ∀ p ∈ m, p.1 ∈ L) (k : String) (hk : k ∉ L) : m.lookup k = Option.none := by
  induction m with
  | nil => rfl
  | cons p t ih =>
    obtain ⟨pk, pv⟩ := p
    have h1 : pk ∈ L := h (pk, pv) (List.mem_cons_self _ _)
    have hne : (k == pk) = false := beq_eq_false_iff_ne.mpr (fun he => hk (he ▸ h1))
    simp only [List.lookup, hne]
    exact ih (fun q hq => h q (List.mem_cons_of_mem _ hq))

lemma filterMap_cons_toList (f : α → Option β) (a : α) (l : List α) :
    List.filterMap f (a :: l) = (f a).toList ++ List.filterMap f l := by
  cases h : f a <;> simp [h]

lemma segment_eq_toList (m : List (String × MVal)) (k label : String) :
    segment m k label = (specFieldPart m (k, label)).toList := by
  cases h : m.lookup k with
  | none => simp [segment, specFieldPart, h]
  | some v => by_cases ht : truthy v <;> simp [segment, specFieldPart, h, ht]

lemma specInvoiceParts_eq (m : List (String × MVal)) :
    specInvoiceParts m =
      segment m "invoice_id" "Invoice ID: " ++ segment m "seller_name" "Seller: " ++
      segment m "seller_address" "Address: " ++ segment m "tax_id" "Tax ID: " ++
      segment m "subtotal_amount" "Subtotal: " ++ segment m "tax_amount" "Tax: " := by
  simp [specInvoiceParts, invoiceFieldLabels, filterMap_cons_toList, segment_eq_toList,
    List.append_assoc]

/-- C2 (corrected): for a mapping whose keys are all invoice fields, the
derived text consists of exactly the fields that are present with truthy
values, as labelled segments in the fixed order, joined by the
separator; a field that is present with a falsy value contributes
nothing, exactly like an absent one. -/
theorem claim_C2 (m : List (String × MVal)) (h : ∀ p ∈ m, p.1 ∈ invoiceFieldNames) :
    metadataParts m = specInvoiceParts m ∧ metadataText m = specInvoiceText m := by
  have h7 : m.lookup "contract_id" = Option.none :=
    lookup_none_of_keys m invoiceFieldNames h _ (by decide)
  have h8 : m.lookup "text" = Option.none :=
    lookup_none_of_keys m invoiceFieldNames h _ (by decide)
  have h9 : m.lookup "summary" = Option.none :=
    lookup_none_of_keys m invoiceFieldNames h _ (by decide)
  have hp : metadataParts m = specInvoiceParts m := by
    rw [specInvoiceParts_eq]
    simp [metadataParts, segment, h7, h8, h9]
  exact ⟨hp, by rw [metadataText, specInvoiceText, hp]⟩

/-- Witness for C2 at a one-field invoice mapping. -/
theorem claim_C2_witness :
    metadataParts [("invoice_id", MVal.str "A")]
        = specInvoiceParts [("invoice_id", MVal.str "A")] ∧
    metadataText [("invoice_id", MVal.str "A")]
        = specInvoiceText [("invoice_id", MVal.str "A")] :=
  claim_C2 _ (by decide)

/-- Counterexample to C2 as stated: the mapping with the single invoice
field `subtotal_amount` present with value `0` derives the empty text,
not the labelled segment `Subtotal: 0` the claim requires for a present
field. -/
theorem claim_C2_counterexample :
    metadataText [("subtotal_amount", MVal.int 0)] = "" ∧
    ("Subtotal: 0" : String) ≠ "" := by
  exact ⟨rfl, by decide⟩

lemma getLast?_append_right (l₁ l₂ : List α) (a : α) (h : l₂.getLast? = some a) :
    (l₁ ++ l₂).getLast? = some a := by
  rw [List.getLast?_append, h]
  rfl

/-- C7 (corrected): when the mapping carries a truthy `summary` value,
the summary segment is the final part of the derived text, whatever
other invoice or contract fields are present; a summary that is present
but falsy is dropped instead. -/
theorem claim_C7 (m : List (String × MVal)) (v : MVal)
    (h : m.lookup "summary" = some v) (ht : truthy v = true) :
    (metadataParts m).getLast? = some ("Summary: " ++ mvalStr v) := by
  have hseg : segment m "summary" "Summary: " = ["Summary: " ++ mvalStr v] := by
    simp [segment, h, ht]
  rw [metadataParts]
  apply getLast?_append_right
  rw [hseg]
  rfl

/-- Witness for C7 at a mapping with a truthy summary. -/
theorem claim_C7_witness :
    (metadataParts [("invoice_id", MVal.str "A"), ("summary", MVal.str "S")]).getLast?
      = some ("Summary: " ++ mvalStr (MVal.str "S")) :=
  claim_C7 _ (MVal.str "S") rfl rfl

/-- Counterexample to C7 as stated: the mapping contains a `summary`
field (with the empty string as value), yet the final derived segment is
the invoice id, not the labelled summary. -/
theorem claim_C7_counterexample :
    [("invoice_id", MVal.str "A"), ("summary", MVal.str "")].lookup "summary"
        = some (MVal.str "") ∧
    (metadataParts [("invoice_id", MVal.str "A"), ("summary", MVal.str "")]).getLast?
        = some "Invoice ID: A" ∧
    "Invoice ID: A" ≠ "Summary: " ++ mvalStr (MVal.str "") := by
  exact ⟨rfl, rfl, by decide⟩

lemma lookup_filterNe_self (m : List (String × MVal)) (k : String) :
    (m.filter (fun p => p.1 != k)).lookup k = Option.none := by
  induction m with
  | nil => rfl
  | cons p t ih =>
    obtain ⟨pk, pv⟩ := p
    by_cases hpk : pk = k
    · subst hpk
      simp [List.filter_cons, ih]
    · have hb : (pk != k) = true := by simp [hpk]
      simp [List.filter_cons, hb, List.lookup,
        beq_eq_false_iff_ne.mpr (Ne.symm hpk), ih]

lemma lookup_filterNe_other (m : List (String × MVal)) (k a : String) (ha : a ≠ k) :
    (m.filter (fun p => p.1 != k)).lookup a = m.lookup a := by
  induction m with
  | nil => rfl
  | cons p t ih =>
    obtain ⟨pk, pv⟩ := p
    by_cases hpk : pk = k
    · subst hpk
      simp [List.filter_cons, List.lookup, beq_eq_false_iff_ne.mpr ha, ih]
    · have hb : (pk != k) = true := by simp [hpk]
      by_cases hak : a = pk
      · subst hak
        simp [List.filter_cons, hb, List.lookup]
      · simp [List.filter_cons, hb, List.lookup, beq_eq_false_iff_ne.mpr hak, ih]

lemma segment_filter (m : List (String × MVal)) (k : String) (v : MVal) (f label : String)
    (hv : m.lookup k = some v) (ht : truthy v = false) :
    segment (m.filter (fun p => p.1 != k)) f label = segment m f label := by
  by_cases hf : f = k
  · subst hf
    simp [segment, lookup_filterNe_self, hv, ht]
  · simp [segment, lookup_filterNe_other m k f hf]

/-- C9 (confirmed): a recognised field whose present value is falsy
(empty string, zero, `None` or `False`) contributes nothing to the
derived text: erasing the binding altogether leaves both the part list
and the joined text unchanged. -/
theorem claim_C9 (m : List (String × MVal)) (k : String) (v : MVal)
    (_hk : k ∈ recognizedFields) (hv : m.lookup k = some v) (ht : truthy v = false) :
    metadataParts (m.filter (fun p => p.1 != k)) = metadataParts m ∧
    metadataText (m.filter (fun p => p.1 != k)) = metadataText m := by
  have hp : ∀ f label, segment (m.filter (fun p => p.1 != k)) f label = segment m f label :=
    fun f label => segment_filter m k v f label hv ht
  refine ⟨?_, ?_⟩ <;> simp only [metadataText, metadataParts, hp]

/-- Witness for C9: a zero subtotal is dropped exactly as if absent. -/
theorem claim_C9_witness :
    metadataParts ([("subtotal_amount", MVal.int 0), ("invoice_id", MVal.str "A")].filter
        (fun p => p.1 != "subtotal_amount"))
      = metadataParts [("subtotal_amount", MVal.int 0), ("invoice_id", MVal.str "A")] ∧
    metadataText ([("subtotal_amount", MVal.int 0), ("invoice_id", MVal.str "A")].filter
        (fun p => p.1 != "subtotal_amount"))
      = metadataText [("subtotal_amount", MVal.int 0), ("invoice_id", MVal.str "A")] :=
  claim_C9 _ "subtotal_amount" (MVal.int 0) (by decide) rfl rfl

lemma tryAlternatives_none (env : GenEnv) (name : String) (L : List String)
    (h : ∀ alt ∈ L, ∃ msg, env.initModel alt = .error msg) :
    tryAlternatives env name L = Option.none := by
  induction L with
  | nil => rfl
  | cons alt rest ih =>
    have hrest := ih (fun a ha => h a (List.mem_cons_of_mem _ ha))
    obtain ⟨msg, hmsg⟩ := h alt (List.mem_cons_self _ _)
    by_cases halt : alt = name
    · subst halt
      simp [tryAlternatives, hrest]
    · have hb : (alt != name) = true := by simp [halt]
      simp [tryAlternatives, hb, hmsg, hrest]

/-- C4 (corrected): when the configured generation model and every
alternative fail to initialise, `generate_answer` raises a new error
whose message embeds the original initialisation failure after the fixed
prefix `Could not initialize any Gemini model. Original error: ` — the
original error is preserved inside the message, not re-raised verbatim. -/
theorem claim_C4 (env : GenEnv) (name query e : String) (ctx : List String)
    (ids : Option (List String)) (hctx : ctx ≠ [])
    (h1 : env.initModel name = .error e)
    (h2 : ∀ alt ∈ alternative_models, ∃ msg, env.initModel alt = .error msg) :
    generate_answer env name query ctx ids =
      .error ("Could not initialize any Gemini model. Original error: " ++ e) := by
  have hins : initGenerativeModel env name =
      .error ("Could not initialize any Gemini model. Original error: " ++ e) := by
    simp [initGenerativeModel, h1, tryAlternatives_none env name _ h2]
  have hne : ctx.isEmpty = false := by
    cases ctx with
    | nil => exact absurd rfl hctx
    | cons a t => rfl
  simp [generate_answer, hne, hins]

/-- Witness for C4 with a service on which every initialisation fails. -/
theorem claim_C4_witness :
    generate_answer (GenEnv.mk (fun _ => .error "boom") (fun _ _ => .error "unused"))
        "gemini-2.0" "q" ["c"] Option.none
      = .error ("Could not initialize any Gemini model. Original error: " ++ "boom") :=
  claim_C4 _ "gemini-2.0" "q" "boom" ["c"] Option.none (by decide) rfl
    (fun _ _ => ⟨"boom", rfl⟩)

/-- Counterexample to C4 as stated: with every initialisation failing
with `boom`, the raised error is the new wrapping message, which differs
from the original error `boom`, so the original failure is not surfaced
verbatim. -/
theorem claim_C4_counterexample :
    generate_answer (GenEnv.mk (fun _ => .error "boom") (fun _ _ => .error "unused"))
        "gemini-2.0" "q2" ["c"] Option.none
      = .error "Could not initialize any Gemini model. Original error: boom" ∧
    ("Could not initialize any Gemini model. Original error: boom" : String) ≠ "boom" := by
  exact ⟨rfl, by decide⟩

lemma generate_answer_run (env : GenEnv) (name model query : String) (ctx : List String)
    (ids : Option (List String)) (r : GenResponse)
    (hctx : ctx.isEmpty = false)
    (hinit : env.initModel name = .ok model)
    (hgen : ∀ prompt, env.generateContent model prompt = .ok r) :
    generate_answer env name query ctx ids = finishAnswer r := by
  simp [generate_answer, hctx, initGenerativeModel, hinit, hgen]

lemma blockedOrExtractError_cases (r : GenResponse) :
    ∃ msg, blockedOrExtractError r = .error msg ∧
      (msg = "Could not extract answer from Gemini response" ∨
       ∃ reason, msg = "Content was blocked: " ++ reason) := by
  cases hf : r.prompt_feedback with
  | none => exact ⟨_, by simp [blockedOrExtractError, hf], Or.inl rfl⟩
  | some fb =>
    cases hb : fb.block_reason with
    | none => exact ⟨_, by simp [blockedOrExtractError, hf, hb], Or.inl rfl⟩
    | some reason =>
      by_cases hr : reason = ""
      · subst hr
        exact ⟨_, by simp [blockedOrExtractError, hf, hb], Or.inl rfl⟩
      · have hb2 : (reason != "") = true := by simp [hr]
        exact ⟨_, by simp [blockedOrExtractError, hf, hb, hb2], Or.inr ⟨reason, rfl⟩⟩

lemma finishAnswer_located (r : GenResponse) (a : String) (h : locateAnswer r = some a) :
    (pyStrip a = "" → ∃ msg, finishAnswer r = .error msg ∧
        (msg = "Could not extract answer from Gemini response" ∨
         msg = "Generated answer is empty" ∨
         ∃ reason, msg = "Content was blocked: " ++ reason)) ∧
    (pyStrip a ≠ "" → finishAnswer r = .ok (pyStrip a)) := by
  constructor
  · intro htrim
    by_cases ha : a = ""
    · subst ha
      obtain ⟨msg, hmsg, hcase⟩ := blockedOrExtractError_cases r
      refine ⟨msg, by simp [finishAnswer, h, hmsg], ?_⟩
      rcases hcase with h1 | ⟨reason, h2⟩
      · exact Or.inl h1
      · exact Or.inr (Or.inr ⟨reason, h2⟩)
    · exact ⟨"Generated answer is empty",
        by simp [finishAnswer, h, ha, htrim], Or.inr (Or.inl rfl)⟩
  · intro htrim
    have ha : a ≠ "" := fun he => htrim (by rw [he]; rfl)
    simp [finishAnswer, h, ha, htrim]

lemma finishAnswer_notFound (r : GenResponse) (h : locateAnswer r = Option.none) :
    ∃ msg, finishAnswer r = .error msg ∧
      (msg = "Could not extract answer from Gemini response" ∨
       ∃ reason, msg = "Content was blocked: " ++ reason) := by
  obtain ⟨msg, hmsg, hc⟩ := blockedOrExtractError_cases r
  exact ⟨msg, by simp [finishAnswer, h, hmsg], hc⟩

/-- C6 (confirmed): once the model initialises and the service responds,
`generate_answer` returns the located answer text stripped of
surrounding whitespace; a located text that is empty or whitespace-only
leads to a descriptive error (the empty-answer error, the extraction
error, or the blocked-content error), and so does a response from which
no answer text can be located at all. -/
theorem claim_C6 (env : GenEnv) (name model query : String) (ctx : List String)
    (ids : Option (List String)) (r : GenResponse)
    (hctx : ctx ≠ [])
    (hinit : env.initModel name = .ok model)
    (hgen : ∀ prompt, env.generateContent model prompt = .ok r) :
    (∀ a, locateAnswer r = some a →
      (pyStrip a = "" → ∃ msg, generate_answer env name query ctx ids = .error msg ∧
          (msg = "Could not extract answer from Gemini response" ∨
           msg = "Generated answer is empty" ∨
           ∃ reason, msg = "Content was blocked: " ++ reason)) ∧
      (pyStrip a ≠ "" → generate_answer env name query ctx ids = .ok (pyStrip a))) ∧
    (locateAnswer r = Option.none →
      ∃ msg, generate_answer env name query ctx ids = .error msg ∧
        (msg = "Could not extract answer from Gemini response" ∨
         ∃ reason, msg = "Content was blocked: " ++ reason)) := by
  have hne : ctx.isEmpty = false := by
    cases ctx with
    | nil => exact absurd rfl hctx
    | cons a t => rfl
  have hrun := generate_answer_run env name model query ctx ids r hne hinit hgen
  rw [hrun]
  exact ⟨fun a ha => finishAnswer_located r a ha, fun h => finishAnswer_notFound r h⟩

/-- Witness for C6 on a response carrying the answer in its direct text
attribute, surrounded by whitespace. -/
theorem claim_C6_witness :
    generate_answer
        (GenEnv.mk (fun _ => .ok "m")
          (fun _ _ => .ok (GenResponse.mk (some "  hi  ") Option.none Option.none)))
        "gemini-2.0" "q" ["c"] Option.none = .ok "hi" :=
  ((claim_C6 _ "gemini-2.0" "m" "q" ["c"] Option.none
      (GenResponse.mk (some "  hi  ") Option.none Option.none)
      (by decide) rfl (fun _ => rfl)).1 "  hi  " rfl).2 (by decide)

/-- C8 (corrected): on HTTP 200 both testers print one line per metadata
pair, but only the contract tester truncates, and only the `text` field,
when its stringified value is truthy and longer than 200 characters (to
a 200 character preview plus the true length); the invoice tester prints
every field in full. -/
theorem claim_C8 (md : List (String × MVal)) (k : String) (v : MVal) (i : Nat)
    (h : md[i]? = some (k, v)) :
    (invoiceMetadataLines md)[i]? = some ("  " ++ k ++ ": " ++ mvalStr v) ∧
    (contractMetadataLines md)[i]? = some (
      if k = "text" ∧ truthy v ∧ 200 < (mvalStr v).length then
        "  " ++ k ++ ": " ++ pyTake (mvalStr v) 200
          ++ "... (truncated, full length: " ++ toString (mvalStr v).length ++ " chars)"
      else "  " ++ k ++ ": " ++ mvalStr v) ∧
    (invoiceMetadataLines md).length = md.length ∧
    (contractMetadataLines md).length = md.length := by
  refine ⟨?_, ?_, by simp [invoiceMetadataLines], by simp [contractMetadataLines]⟩
  · simp [invoiceMetadataLines, invoiceMetadataLine, List.getElem?_map, h]
  · simp [contractMetadataLines, contractMetadataLine, List.getElem?_map, h]

/-- Witness for C8 on a short non-text field. -/
theorem claim_C8_witness :
    (invoiceMetadataLines [("note", MVal.str "x")])[0]? = some "  note: x" ∧
    (contractMetadataLines [("note", MVal.str "x")])[0]? = some "  note: x" ∧
    (invoiceMetadataLines [("note", MVal.str "x")]).length = 1 ∧
    (contractMetadataLines [("note", MVal.str "x")]).length = 1 :=
  claim_C8 [("note", MVal.str "x")] "note" (MVal.str "x") 0 rfl

set_option maxRecDepth 4000 in
/-- Counterexample to C8 as stated: in the invoice upload path a `text`
value of 201 characters is printed in full, not truncated to the
200 character preview with a length note that the claim requires of both
paths. -/
theorem claim_C8_counterexample :
    (mvalStr (MVal.str (String.mk (List.replicate 201 'a')))).length = 201 ∧
    invoiceMetadataLine "text" (MVal.str (String.mk (List.replicate 201 'a')))
        = "  text: " ++ String.mk (List.replicate 201 'a') ∧
    "  text: " ++ String.mk (List.replicate 201 'a')
        ≠ "  text: " ++ pyTake (String.mk (List.replicate 201 'a')) 200
            ++ "... (truncated, full length: 201 chars)" := by
  exact ⟨rfl, rfl, by decide⟩

end DocuFlow
